import Mathlib

/-!
Verification of the wallpaper layout-and-composition engine of `ts-release`
(`internal/wallpaper/layout.go` and friends), shallowly embedded in Lean.

Go `int` arithmetic is modelled by `Int` (all quantities involved stay far
below 2^63, and the Go code never relies on wrap-around).  Go integer
division truncates toward zero, which is `Int.tdiv`; Lean's `/` on `Int` is
Euclidean division, which agrees with floor division for positive divisors.
`fixed.Int26_6` values (26.6 fixed-point, units of 1/64 pixel) are modelled
as `Int`; its `Ceil` method is `(x + 0x3f) >> 6`, an arithmetic shift,
i.e. floor division of `x + 63` by `64`.
-/

namespace TsRelease

/-- Go integer division: truncation toward zero (`a / b` in Go). -/
def gdiv (a b : Int) : Int := a.tdiv b

/-- The `minInt` from `layout.go`. -/
def minInt (a b : Int) : Int := if a < b then a else b

/-- The `maxInt` from `layout.go`. -/
def maxInt (a b : Int) : Int := if a > b then a else b

/-- The `fixed.Int26_6.Ceil()`: `(x + 0x3f) >> 6` with an arithmetic shift.
For a positive divisor, Lean's `/` on `Int` is floor division, which is
exactly what the arithmetic right shift computes. -/
def fixedCeil (x : Int) : Int := (x + 63) / 64

/-- A loaded `font.Face`.  `measure` is `font.MeasureString` (the total
advance of a string, in 26.6 fixed-point units); `ascent` and `descent`
are the face metrics, also in 26.6 units. -/
structure Face where
  measure : String → Int
  ascent : Int
  descent : Int

/-- Real font faces report nonnegative advances and nonnegative
ascent/descent metrics; this captures that contract of `font.Face`. -/
def Face.wf (f : Face) : Prop :=
  (∀ s, 0 ≤ f.measure s) ∧ 0 ≤ f.ascent ∧ 0 ≤ f.descent

/-- The `font.MeasureString(face, s).Ceil()`. -/
def advanceOf (f : Face) (s : String) : Int := fixedCeil (f.measure s)

/-- The `(metrics.Ascent + metrics.Descent).Ceil()` — the line height used by
the layout. -/
def lineHeightOf (f : Face) : Int := fixedCeil (f.ascent + f.descent)

/-- The `metrics.Ascent.Ceil()`. -/
def ascentCeilOf (f : Face) : Int := fixedCeil f.ascent

/-- The `Layout` struct from `layout.go`.  `BoxOpacity` is a `uint8` in Go;
`TitleFontSize`/`SubtitleFontSize` are `float64` conversions of the integer
values stored here. -/
structure Layout where
  Width : Int
  Height : Int
  BoxX0 : Int
  BoxY0 : Int
  BoxX1 : Int
  BoxY1 : Int
  BoxWidth : Int
  BoxHeight : Int
  BoxRadius : Int
  BoxOpacity : Int
  Padding : Int
  TitleX : Int
  TitleY : Int
  SubtitleX : Int
  SubtitleY : Int
  SeparatorY : Int
  SeparatorThickness : Int
  TitleFontSize : Int
  SubtitleFontSize : Int
deriving DecidableEq, Repr, Inhabited

/-- Target dimensions for the output wallpaper (constants in `layout.go`). -/
def TargetWidth : Int := 3840

/-- Target height constant. -/
def TargetHeight : Int := 2160

/-- The `boxWidthPercent` constant. -/
def boxWidthPercent : Int := 48

/-- The `paddingPercent` constant. -/
def paddingPercent : Int := 5

/-- The `radiusDivisor` constant. -/
def radiusDivisor : Int := 9

/-- The `lineThicknessDiv` constant. -/
def lineThicknessDiv : Int := 160

/-- The `boxOpacityDefault` constant. -/
def boxOpacityDefault : Int := 200

/-- The straight-line body of `ComputeLayoutForText` after the dimension
defaulting and the nil-face check (lines 53–108 of `layout.go`). -/
def computeLayoutCore (width height : Int) (tf sf : Face) (title subtitle : String) : Layout :=
  let titleAdvance := advanceOf tf title
  let subAdvance := advanceOf sf subtitle
  let titleHeight := lineHeightOf tf
  let subtitleHeight := lineHeightOf sf
  let padding := maxInt 14 (gdiv (minInt width height * paddingPercent) 100)
  let contentWidth := maxInt titleAdvance subAdvance
  let defaultBoxWidth := gdiv (width * boxWidthPercent) 100
  let boxWidth := maxInt defaultBoxWidth (contentWidth + padding * 2)
  let lineThickness := maxInt 2 (gdiv height lineThicknessDiv)
  let gapAfterTitle := maxInt (gdiv padding 3) lineThickness
  let gapAfterSeparator := gdiv padding 2
  let boxHeight := padding + titleHeight + gapAfterTitle + lineThickness +
    gapAfterSeparator + subtitleHeight + padding
  let boxX0 := gdiv (width - boxWidth) 2
  let boxY0 := gdiv (height - boxHeight) 2
  let boxX1 := boxX0 + boxWidth
  let boxY1 := boxY0 + boxHeight
  let radius := maxInt 10 (gdiv (minInt boxWidth boxHeight) radiusDivisor)
  let titleX := boxX0 + gdiv (boxWidth - titleAdvance) 2
  let titleY := boxY0 + padding + ascentCeilOf tf
  let separatorY := boxY0 + padding + titleHeight + gapAfterTitle + gdiv lineThickness 2
  let subtitleX := boxX0 + gdiv (boxWidth - subAdvance) 2
  let subtitleY := separatorY + gdiv lineThickness 2 + gapAfterSeparator + ascentCeilOf sf
  { Width := width
    Height := height
    BoxX0 := boxX0
    BoxY0 := boxY0
    BoxX1 := boxX1
    BoxY1 := boxY1
    BoxWidth := boxWidth
    BoxHeight := boxHeight
    BoxRadius := radius
    BoxOpacity := boxOpacityDefault
    Padding := padding
    TitleX := titleX
    TitleY := titleY
    SubtitleX := subtitleX
    SubtitleY := subtitleY
    SeparatorY := separatorY
    SeparatorThickness := lineThickness
    TitleFontSize := ascentCeilOf tf + fixedCeil tf.descent
    SubtitleFontSize := ascentCeilOf sf + fixedCeil sf.descent }

/-- The `ComputeLayoutForText` from `layout.go`: non-positive dimensions are
replaced by the target resolution, a nil face is an error, and otherwise
the layout is computed by the straight-line body. -/
def ComputeLayoutForText (width height : Int) (titleFace subtitleFace : Option Face)
    (title subtitle : String) : Except String Layout :=
  let w := if width ≤ 0 ∨ height ≤ 0 then TargetWidth else width
  let h := if width ≤ 0 ∨ height ≤ 0 then TargetHeight else height
  match titleFace, subtitleFace with
  | some tf, some sf => .ok (computeLayoutCore w h tf sf title subtitle)
  | _, _ => .error "layout: font face is nil"

/-- The `math.Round(float64(w) * 0.15)` modelled in exact arithmetic: for the
positive widths this is applied to, rounding `3w/20` half away from zero
is `⌊(3w + 10)/20⌋`, and `/` on `Int` is floor division for a positive
divisor. -/
def round15 (w : Int) : Int := (3 * w + 10) / 20

/-- The `maxTextWidthForImage` from `layout.go`: the maximum safe text width
for a canvas width, `imageWidth − 2×max(24, round(imageWidth×0.15))`,
an error when the width is non-positive or no room is left. -/
def maxTextWidthForImage (imageWidth : Int) : Except String Int :=
  if imageWidth ≤ 0 then .error s!"render: invalid image width {imageWidth}"
  else
    let margin := maxInt 24 (round15 imageWidth)
    let maxWidth := imageWidth - 2 * margin
    if maxWidth ≤ 0 then
      .error "render: text is too long for the selected image resolution, please reduce the text"
    else .ok maxWidth

/-- The `validateTextWidth` from `layout.go`; `none` means the text fits. -/
def validateTextWidth (label : String) (face : Face) (text : String) (maxWidth : Int) :
    Option String :=
  if maxWidth ≤ 0 then
    some ("render: " ++ label ++
      " text is too long for the selected image resolution, please reduce the text")
  else if advanceOf face text > maxWidth then
    some ("render: " ++ label ++
      " text is too long for the selected image resolution, please reduce the text")
  else none

/-- An integer rectangle, as Go's `image.Rectangle` (half-open on both
axes: the pixels covered are `x0 ≤ x < x1`, `y0 ≤ y < y1`). -/
structure GoRect where
  x0 : Int
  y0 : Int
  x1 : Int
  y1 : Int
deriving DecidableEq, Repr

/-- A decoded raster image, reduced to its bounds (`Dx`/`Dy` of Go's
`image.Image.Bounds()`, which are never negative for decoder output). -/
structure GoImage where
  w : Nat
  h : Nat
deriving DecidableEq, Repr

/-- The render canvas: its dimensions plus a record of the overlay drawn
onto it — the rounded panel (rect and clamped radius), the separator
rect, and the text runs with their baseline anchors.  Pixel contents of
the background are not modelled; no claim concerns them. -/
structure Canvas where
  width : Int
  height : Int
  panel : Option (GoRect × Int) := none
  separator : Option GoRect := none
  texts : List (String × Int × Int) := []
deriving DecidableEq, Repr

/-- The `resizeAndCrop` from `layout.go`.  The cover-scale factor and the
scaled dimensions are computed over `ℚ`, the exact-arithmetic reading of
the `float64` computation; the crop result `image.NewRGBA(image.Rect(0,
0, width, height))` has `|width| × |height|` bounds regardless. -/
def resizeAndCrop (src : GoImage) (width height : Int) : Except String GoImage :=
  if src.w = 0 ∨ src.h = 0 then .error "render: background has zero area"
  else
    let scale : ℚ := max ((width : ℚ) / (src.w : ℚ)) ((height : ℚ) / (src.h : ℚ))
    let scaledW : Int := ⌈(src.w : ℚ) * scale⌉
    let scaledH : Int := ⌈(src.h : ℚ) * scale⌉
    let offsetX := gdiv (scaledW - width) 2
    let offsetY := gdiv (scaledH - height) 2
    let _ := (offsetX, offsetY)
    .ok { w := width.natAbs, h := height.natAbs }

/-- The `drawRoundedRect` from `layout.go`: a non-positive radius draws a
plain rectangle, otherwise the radius is clamped to half the smaller
panel dimension before rasterizing. -/
def drawRoundedRect (canvas : Canvas) (rect : GoRect) (radius : Int) : Canvas :=
  if radius ≤ 0 then { canvas with panel := some (rect, radius) }
  else
    let r := minInt radius (minInt (gdiv (rect.x1 - rect.x0) 2) (gdiv (rect.y1 - rect.y0) 2))
    { canvas with panel := some (rect, r) }

/-- The separator width computation inside `drawSeparator`: clamp the
text width to the panel content width, add the extra, clamp again. -/
def separatorDesiredWidth (layout : Layout) (textWidth : Int) : Int :=
  let maxWidth := layout.BoxWidth - 2 * layout.Padding
  let textWidth := if textWidth > maxWidth then maxWidth else textWidth
  let extra := maxInt (gdiv layout.Padding 4) 10
  let desiredWidth := textWidth + extra
  if desiredWidth > maxWidth then maxWidth else desiredWidth

/-- The rectangle filled by `drawSeparator`: horizontally centered in the
panel with the desired width, vertically `lineHeight/2` above and below
the separator center. -/
def drawSeparatorRect (layout : Layout) (textWidth : Int) : GoRect :=
  let desiredWidth := separatorDesiredWidth layout textWidth
  let startX := layout.BoxX0 + gdiv (layout.BoxWidth - desiredWidth) 2
  let endX := startX + desiredWidth
  { x0 := startX
    y0 := layout.SeparatorY - gdiv layout.SeparatorThickness 2
    x1 := endX
    y1 := layout.SeparatorY + gdiv layout.SeparatorThickness 2 }

/-- The `drawSeparator` from `layout.go`, recording the filled rect. -/
def drawSeparator (canvas : Canvas) (layout : Layout) (textWidth : Int) : Canvas :=
  { canvas with separator := some (drawSeparatorRect layout textWidth) }

/-- Drawing a text run at a baseline anchor. -/
def drawTextOn (canvas : Canvas) (text : String) (x y : Int) : Canvas :=
  { canvas with texts := canvas.texts ++ [(text, x, y)] }

/-- The `drawText` from `layout.go`: errors only on a nil face. -/
def drawText (canvas : Canvas) (face : Option Face) (text : String) (x y : Int) :
    Except String Canvas :=
  match face with
  | none => .error "render: font face is nil"
  | some _ => .ok (drawTextOn canvas text x y)

/-- The environment `Render` draws from: the supplied background (nil when
absent) and the results of loading the two embedded fonts at the title
and subtitle sizes (external effects, provided as inputs here). -/
structure RenderEnv where
  bg : Option GoImage
  titleFaceLoad : Except String Face
  subtitleFaceLoad : Except String Face

/-- The title label derivation at the top of `Render`. -/
def titleFor (targetName : String) : String :=
  let t := targetName.trim
  if t = "" then "TSSH" else "TSSH " ++ t

/-- The subtitle label derivation at the top of `Render`. -/
def subtitleFor (buildID : String) : String :=
  let s := buildID.trim
  if s = "" then "build unknown" else s

/-- The `Render` from `layout.go`, with Go's two-value return modelled
directly as an image-option paired with an error-option: every `return
nil, err` is `(none, some err)` and the final success is
`(some canvas, none)`. -/
def Render (env : RenderEnv) (targetName buildID : String) : Option Canvas × Option String :=
  match env.bg with
  | none => (none, some "render: background is nil")
  | some bg =>
    let title := titleFor targetName
    let subtitle := subtitleFor buildID
    match env.titleFaceLoad with
    | .error e => (none, some ("render: load title font: " ++ e))
    | .ok titleFace =>
      match env.subtitleFaceLoad with
      | .error e => (none, some ("render: load subtitle font: " ++ e))
      | .ok subtitleFace =>
        match ComputeLayoutForText TargetWidth TargetHeight (some titleFace)
          (some subtitleFace) title subtitle with
        | .error e => (none, some e)
        | .ok layout =>
          match resizeAndCrop bg layout.Width layout.Height with
          | .error e => (none, some e)
          | .ok _bgLayer =>
            let canvas : Canvas := { width := layout.Width, height := layout.Height }
            let canvas := drawRoundedRect canvas
              ⟨layout.BoxX0, layout.BoxY0, layout.BoxX1, layout.BoxY1⟩ layout.BoxRadius
            let longestTextWidth :=
              maxInt (advanceOf titleFace title) (advanceOf subtitleFace subtitle)
            let canvas := drawSeparator canvas layout longestTextWidth
            match maxTextWidthForImage layout.Width with
            | .error e => (none, some e)
            | .ok maxTextWidth =>
              match validateTextWidth "title" titleFace title maxTextWidth with
              | some e => (none, some e)
              | none =>
                match drawText canvas (some titleFace) title layout.TitleX layout.TitleY with
                | .error e => (none, some e)
                | .ok canvas2 =>
                  match validateTextWidth "subtitle" subtitleFace subtitle maxTextWidth with
                  | some e => (none, some e)
                  | none =>
                    match drawText canvas2 (some subtitleFace) subtitle
                      layout.SubtitleX layout.SubtitleY with
                    | .error e => (none, some e)
                    | .ok canvas3 => (some canvas3, none)

/-- The layout `Render` computes for its fixed target resolution. -/
def renderLayout (tf sf : Face) (tn bid : String) : Layout :=
  computeLayoutCore TargetWidth TargetHeight tf sf (titleFor tn) (subtitleFor bid)

/-! ### Concrete demonstration data

Concrete instances of the `font.Face` contract, used to instantiate the
theorems below on closed inputs.  The numbers are 26.6 fixed-point values
of the same order as the DejaVu faces at the sizes used by `Render`. -/

/-- A demonstration bold title face: every rune advances 40 px. -/
def demoTitleFace : Face :=
  { measure := fun s => 2560 * (s.length : Int), ascent := 8257, descent := 2103 }

/-- A demonstration regular subtitle face: every rune advances 24 px. -/
def demoSubtitleFace : Face :=
  { measure := fun s => 1536 * (s.length : Int), ascent := 4953, descent := 1262 }

/-- A face whose strings all measure 1000 px wide — far wider than a
100×100 canvas.  Its metrics are nonnegative, as for any real face. -/
def demoWideFace : Face :=
  { measure := fun _ => 64000, ascent := 640, descent := 128 }

/-- A face whose strings all measure 3000 px — wider than the 2688 px
safe width at the target resolution. -/
def demoHugeFace : Face :=
  { measure := fun _ => 192000, ascent := 640, descent := 128 }

/-- A title face measuring every string at 360 px. -/
def demoConstTitleFace : Face :=
  { measure := fun _ => 23040, ascent := 8257, descent := 2103 }

/-- A subtitle face measuring every string at 168 px. -/
def demoConstSubtitleFace : Face :=
  { measure := fun _ => 10752, ascent := 4953, descent := 1262 }

/-- The layout computed at the target resolution with the demonstration
faces; its panel fits the canvas. -/
def demoLayout : Layout :=
  computeLayoutCore 3840 2160 demoTitleFace demoSubtitleFace "TSSH test" "build-1"

/-! ### Basic rewriting lemmas -/

theorem maxInt_eq (a b : Int) : maxInt a b = max a b := by
  unfold maxInt
  split <;> omega

theorem minInt_eq (a b : Int) : minInt a b = min a b := by
  unfold minInt
  split <;> omega

theorem gdiv_eq (a b : Int) (ha : 0 ≤ a) (hb : 0 ≤ b) : gdiv a b = a / b :=
  Int.tdiv_eq_ediv ha hb

theorem fixedCeil_nonneg {x : Int} (h : 0 ≤ x) : 0 ≤ fixedCeil x := by
  unfold fixedCeil
  omega

theorem fixedCeil_mono {a b : Int} (h : a ≤ b) : fixedCeil a ≤ fixedCeil b := by
  unfold fixedCeil
  omega

/-! ### Field lemmas for `computeLayoutCore` (all definitional) -/

theorem core_Width (w h : Int) (tf sf : Face) (t s : String) :
    (computeLayoutCore w h tf sf t s).Width = w := rfl

theorem core_Height (w h : Int) (tf sf : Face) (t s : String) :
    (computeLayoutCore w h tf sf t s).Height = h := rfl

theorem core_Padding (w h : Int) (tf sf : Face) (t s : String) :
    (computeLayoutCore w h tf sf t s).Padding =
      maxInt 14 (gdiv (minInt w h * paddingPercent) 100) := rfl

theorem core_BoxWidth (w h : Int) (tf sf : Face) (t s : String) :
    (computeLayoutCore w h tf sf t s).BoxWidth =
      maxInt (gdiv (w * boxWidthPercent) 100)
        (maxInt (advanceOf tf t) (advanceOf sf s) +
          (computeLayoutCore w h tf sf t s).Padding * 2) := rfl

theorem core_SeparatorThickness (w h : Int) (tf sf : Face) (t s : String) :
    (computeLayoutCore w h tf sf t s).SeparatorThickness =
      maxInt 2 (gdiv h lineThicknessDiv) := rfl

theorem core_BoxHeight (w h : Int) (tf sf : Face) (t s : String) :
    (computeLayoutCore w h tf sf t s).BoxHeight =
      (computeLayoutCore w h tf sf t s).Padding + lineHeightOf tf +
        maxInt (gdiv (computeLayoutCore w h tf sf t s).Padding 3)
          (computeLayoutCore w h tf sf t s).SeparatorThickness +
        (computeLayoutCore w h tf sf t s).SeparatorThickness +
        gdiv (computeLayoutCore w h tf sf t s).Padding 2 + lineHeightOf sf +
        (computeLayoutCore w h tf sf t s).Padding := rfl

theorem core_BoxX0 (w h : Int) (tf sf : Face) (t s : String) :
    (computeLayoutCore w h tf sf t s).BoxX0 =
      gdiv (w - (computeLayoutCore w h tf sf t s).BoxWidth) 2 := rfl

theorem core_BoxY0 (w h : Int) (tf sf : Face) (t s : String) :
    (computeLayoutCore w h tf sf t s).BoxY0 =
      gdiv (h - (computeLayoutCore w h tf sf t s).BoxHeight) 2 := rfl

theorem core_BoxX1 (w h : Int) (tf sf : Face) (t s : String) :
    (computeLayoutCore w h tf sf t s).BoxX1 =
      (computeLayoutCore w h tf sf t s).BoxX0 +
        (computeLayoutCore w h tf sf t s).BoxWidth := rfl

theorem core_BoxY1 (w h : Int) (tf sf : Face) (t s : String) :
    (computeLayoutCore w h tf sf t s).BoxY1 =
      (computeLayoutCore w h tf sf t s).BoxY0 +
        (computeLayoutCore w h tf sf t s).BoxHeight := rfl

theorem core_BoxRadius (w h : Int) (tf sf : Face) (t s : String) :
    (computeLayoutCore w h tf sf t s).BoxRadius =
      maxInt 10 (gdiv (minInt (computeLayoutCore w h tf sf t s).BoxWidth
        (computeLayoutCore w h tf sf t s).BoxHeight) radiusDivisor) := rfl

theorem core_TitleX (w h : Int) (tf sf : Face) (t s : String) :
    (computeLayoutCore w h tf sf t s).TitleX =
      (computeLayoutCore w h tf sf t s).BoxX0 +
        gdiv ((computeLayoutCore w h tf sf t s).BoxWidth - advanceOf tf t) 2 := rfl

theorem core_TitleY (w h : Int) (tf sf : Face) (t s : String) :
    (computeLayoutCore w h tf sf t s).TitleY =
      (computeLayoutCore w h tf sf t s).BoxY0 +
        (computeLayoutCore w h tf sf t s).Padding + ascentCeilOf tf := rfl

theorem core_SeparatorY (w h : Int) (tf sf : Face) (t s : String) :
    (computeLayoutCore w h tf sf t s).SeparatorY =
      (computeLayoutCore w h tf sf t s).BoxY0 +
        (computeLayoutCore w h tf sf t s).Padding + lineHeightOf tf +
        maxInt (gdiv (computeLayoutCore w h tf sf t s).Padding 3)
          (computeLayoutCore w h tf sf t s).SeparatorThickness +
        gdiv (computeLayoutCore w h tf sf t s).SeparatorThickness 2 := rfl

theorem core_SubtitleX (w h : Int) (tf sf : Face) (t s : String) :
    (computeLayoutCore w h tf sf t s).SubtitleX =
      (computeLayoutCore w h tf sf t s).BoxX0 +
        gdiv ((computeLayoutCore w h tf sf t s).BoxWidth - advanceOf sf s) 2 := rfl

theorem core_SubtitleY (w h : Int) (tf sf : Face) (t s : String) :
    (computeLayoutCore w h tf sf t s).SubtitleY =
      (computeLayoutCore w h tf sf t s).SeparatorY +
        gdiv (computeLayoutCore w h tf sf t s).SeparatorThickness 2 +
        gdiv (computeLayoutCore w h tf sf t s).Padding 2 + ascentCeilOf sf := rfl

theorem computeLayout_pos_eq (w h : Int) (hw : 0 < w) (hh : 0 < h)
    (tf sf : Face) (t s : String) :
    ComputeLayoutForText w h (some tf) (some sf) t s =
      .ok (computeLayoutCore w h tf sf t s) := by
  unfold ComputeLayoutForText
  simp only [if_neg (by omega : ¬(w ≤ 0 ∨ h ≤ 0))]

/-! ### Shared bounds on the computed layout -/

theorem gdiv_nonneg {a b : Int} (ha : 0 ≤ a) (hb : 0 ≤ b) : 0 ≤ gdiv a b := by
  rw [gdiv_eq a b ha hb]
  exact Int.ediv_nonneg ha hb

theorem lineHeightOf_nonneg {f : Face} (hf : f.wf) : 0 ≤ lineHeightOf f := by
  obtain ⟨-, ha, hd⟩ := hf
  exact fixedCeil_nonneg (by omega)

theorem ascentCeilOf_nonneg {f : Face} (hf : f.wf) : 0 ≤ ascentCeilOf f :=
  fixedCeil_nonneg hf.2.1

theorem ascentCeilOf_le_lineHeightOf {f : Face} (hf : f.wf) :
    ascentCeilOf f ≤ lineHeightOf f :=
  fixedCeil_mono (by have := hf.2.2; omega)

theorem advanceOf_nonneg {f : Face} (hf : f.wf) (s : String) : 0 ≤ advanceOf f s :=
  fixedCeil_nonneg (hf.1 s)

theorem core_Padding_ge_14 (w h : Int) (tf sf : Face) (t s : String) :
    14 ≤ (computeLayoutCore w h tf sf t s).Padding := by
  rw [core_Padding, maxInt_eq]
  omega

theorem core_Thickness_ge_2 (w h : Int) (tf sf : Face) (t s : String) :
    2 ≤ (computeLayoutCore w h tf sf t s).SeparatorThickness := by
  rw [core_SeparatorThickness, maxInt_eq]
  omega

theorem core_content_le_BoxWidth (w h : Int) (tf sf : Face) (t s : String) :
    maxInt (advanceOf tf t) (advanceOf sf s) +
      (computeLayoutCore w h tf sf t s).Padding * 2 ≤
      (computeLayoutCore w h tf sf t s).BoxWidth := by
  conv_rhs => rw [core_BoxWidth]
  rw [maxInt_eq ((gdiv (w * boxWidthPercent) 100))]
  omega

theorem core_BoxWidth_nonneg (w h : Int) (tf sf : Face) (htf : tf.wf) (hsf : sf.wf)
    (t s : String) : 0 ≤ (computeLayoutCore w h tf sf t s).BoxWidth := by
  have h1 := core_content_le_BoxWidth w h tf sf t s
  have h2 := core_Padding_ge_14 w h tf sf t s
  have h3 := advanceOf_nonneg htf t
  have h4 := advanceOf_nonneg hsf s
  rw [maxInt_eq] at h1
  omega

theorem core_BoxHeight_nonneg (w h : Int) (tf sf : Face) (htf : tf.wf) (hsf : sf.wf)
    (t s : String) : 0 ≤ (computeLayoutCore w h tf sf t s).BoxHeight := by
  have h1 := core_Padding_ge_14 w h tf sf t s
  have h2 := core_Thickness_ge_2 w h tf sf t s
  have h3 := lineHeightOf_nonneg htf
  have h4 := lineHeightOf_nonneg hsf
  have h5 : 0 ≤ gdiv (computeLayoutCore w h tf sf t s).Padding 3 :=
    gdiv_nonneg (by omega) (by norm_num)
  have h6 : 0 ≤ gdiv (computeLayoutCore w h tf sf t s).Padding 2 :=
    gdiv_nonneg (by omega) (by norm_num)
  rw [core_BoxHeight, maxInt_eq]
  omega

/-! ### Spec-side formulas (§4.2 of the design spec)

These definitions are written from the spec's words, independently of the
source embedding above: `floor(x × 0.05)` and friends become floor
divisions (`/` on `Int` is floor division for a positive divisor), and the
plain `a/b` divisions of the spec "truncate toward zero" (§4.2), i.e.
`Int.tdiv`.  The measured quantities (advances, line heights, ascents) are
taken as inputs, exactly as the spec's formula layer does. -/

namespace SpecFormulas

/-- Spec formula `padding = max(14, floor(min(canvasW, canvasH) × 0.05))`. -/
def padding (canvasW canvasH : Int) : Int := max 14 (min canvasW canvasH * 5 / 100)

/-- Spec formula `contentWidth = max(titleAdvance, subAdvance)`. -/
def contentWidth (titleAdvance subAdvance : Int) : Int := max titleAdvance subAdvance

/-- Spec formula `panelWidth = max(floor(canvasW × 0.48), contentWidth + 2×padding)`. -/
def panelWidth (canvasW cw p : Int) : Int := max (canvasW * 48 / 100) (cw + 2 * p)

/-- Spec formula `lineThickness = max(2, floor(canvasH / 160))`. -/
def lineThickness (canvasH : Int) : Int := max 2 (canvasH / 160)

/-- Spec formula `gapAfterTitle = max(padding/3, lineThickness)`. -/
def gapAfterTitle (p lt : Int) : Int := max (p.tdiv 3) lt

/-- Spec formula `gapAfterSeparator = padding/2`. -/
def gapAfterSeparator (p : Int) : Int := p.tdiv 2

/-- Spec formula `panelHeight = padding + titleLineHeight + gapAfterTitle + lineThickness +
gapAfterSeparator + subtitleLineHeight + padding`. -/
def panelHeight (p tlh gat lt gas slh : Int) : Int := p + tlh + gat + lt + gas + slh + p

/-- Spec formula `panelX0 = (canvasW − panelWidth)/2` (and the same formula for Y). -/
def panelStart (canvasDim panelDim : Int) : Int := (canvasDim - panelDim).tdiv 2

/-- Spec formula `radius = max(10, floor(min(panelWidth, panelHeight)/9))`. -/
def radius (pw ph : Int) : Int := max 10 (min pw ph / 9)

/-- Separator vertical center
`= panelY0 + padding + titleLineHeight + gapAfterTitle + lineThickness/2`. -/
def separatorCenter (panelY0 p tlh gat lt : Int) : Int := panelY0 + p + tlh + gat + lt.tdiv 2

/-- Title baseline: x centered within the panel using `titleAdvance`,
y `= panelY0 + padding + titleAscent`. -/
def titleBaselineX (panelX0 pw titleAdvance : Int) : Int := panelX0 + (pw - titleAdvance).tdiv 2

/-- Title baseline y. -/
def titleBaselineY (panelY0 p titleAscent : Int) : Int := panelY0 + p + titleAscent

/-- Subtitle baseline x, centered using `subAdvance`. -/
def subtitleBaselineX (panelX0 pw subAdvance : Int) : Int := panelX0 + (pw - subAdvance).tdiv 2

/-- Subtitle baseline y
`= separatorCenter + lineThickness/2 + gapAfterSeparator + subtitleAscent`. -/
def subtitleBaselineY (sepCenter lt gas subtitleAscent : Int) : Int :=
  sepCenter + lt.tdiv 2 + gas + subtitleAscent

end SpecFormulas

/-! ### Claim C1 -/

/-- Claim C1: for positive canvas dimensions and non-nil faces (with the
nonnegative metrics every real font face reports), `ComputeLayoutForText`
returns exactly the geometry record given by the spec's formulas, where
`titleAdvance`/`subAdvance` are the measured advances rounded up,
`titleLineHeight`/`subtitleLineHeight` are the measured `ascent + descent`
rounded up and `titleAscent`/`subtitleAscent` the measured ascents rounded
up. -/
theorem computeLayout_matches_spec_formulas (w h : Int) (hw : 0 < w) (hh : 0 < h)
    (tf sf : Face) (htf : tf.wf) (hsf : sf.wf) (title subtitle : String) :
    ∃ l, ComputeLayoutForText w h (some tf) (some sf) title subtitle = .ok l ∧
      l.Padding = SpecFormulas.padding w h ∧
      l.BoxWidth = SpecFormulas.panelWidth w
        (SpecFormulas.contentWidth (advanceOf tf title) (advanceOf sf subtitle))
        (SpecFormulas.padding w h) ∧
      l.SeparatorThickness = SpecFormulas.lineThickness h ∧
      l.BoxHeight = SpecFormulas.panelHeight l.Padding (lineHeightOf tf)
        (SpecFormulas.gapAfterTitle l.Padding l.SeparatorThickness) l.SeparatorThickness
        (SpecFormulas.gapAfterSeparator l.Padding) (lineHeightOf sf) ∧
      l.BoxX0 = SpecFormulas.panelStart w l.BoxWidth ∧
      l.BoxY0 = SpecFormulas.panelStart h l.BoxHeight ∧
      l.BoxX1 = l.BoxX0 + l.BoxWidth ∧
      l.BoxY1 = l.BoxY0 + l.BoxHeight ∧
      l.BoxRadius = SpecFormulas.radius l.BoxWidth l.BoxHeight ∧
      l.SeparatorY = SpecFormulas.separatorCenter l.BoxY0 l.Padding (lineHeightOf tf)
        (SpecFormulas.gapAfterTitle l.Padding l.SeparatorThickness) l.SeparatorThickness ∧
      l.TitleX = SpecFormulas.titleBaselineX l.BoxX0 l.BoxWidth (advanceOf tf title) ∧
      l.TitleY = SpecFormulas.titleBaselineY l.BoxY0 l.Padding (ascentCeilOf tf) ∧
      l.SubtitleX = SpecFormulas.subtitleBaselineX l.BoxX0 l.BoxWidth (advanceOf sf subtitle) ∧
      l.SubtitleY = SpecFormulas.subtitleBaselineY l.SeparatorY l.SeparatorThickness
        (SpecFormulas.gapAfterSeparator l.Padding) (ascentCeilOf sf) := by
  have hmin : (0:Int) < min w h := by omega
  have hpad : gdiv (minInt w h * paddingPercent) 100 = min w h * 5 / 100 := by
    rw [minInt_eq]
    unfold paddingPercent
    exact gdiv_eq _ _ (by omega) (by omega)
  have hdbw : gdiv (w * boxWidthPercent) 100 = w * 48 / 100 := by
    unfold boxWidthPercent
    exact gdiv_eq _ _ (by omega) (by omega)
  have hlt : gdiv h lineThicknessDiv = h / 160 := by
    unfold lineThicknessDiv
    exact gdiv_eq _ _ (by omega) (by omega)
  refine ⟨computeLayoutCore w h tf sf title subtitle,
    computeLayout_pos_eq w h hw hh tf sf title subtitle, ?_, ?_, ?_, ?_, ?_, ?_, ?_, ?_, ?_,
    ?_, ?_, ?_, ?_, ?_⟩
  · rw [core_Padding, maxInt_eq, hpad, SpecFormulas.padding]
  · rw [core_BoxWidth, core_Padding, SpecFormulas.panelWidth, SpecFormulas.contentWidth,
      SpecFormulas.padding]
    simp only [maxInt_eq]
    rw [hpad, hdbw]
    ring_nf
  · rw [core_SeparatorThickness, maxInt_eq, hlt, SpecFormulas.lineThickness]
  · rw [core_BoxHeight, SpecFormulas.panelHeight, SpecFormulas.gapAfterTitle,
      SpecFormulas.gapAfterSeparator, maxInt_eq]
    rfl
  · rw [core_BoxX0, SpecFormulas.panelStart]
    rfl
  · rw [core_BoxY0, SpecFormulas.panelStart]
    rfl
  · rw [core_BoxX1]
  · rw [core_BoxY1]
  · have hbw := core_BoxWidth_nonneg w h tf sf htf hsf title subtitle
    have hbh := core_BoxHeight_nonneg w h tf sf htf hsf title subtitle
    have hdr : gdiv (minInt (computeLayoutCore w h tf sf title subtitle).BoxWidth
        (computeLayoutCore w h tf sf title subtitle).BoxHeight) radiusDivisor =
        min (computeLayoutCore w h tf sf title subtitle).BoxWidth
          (computeLayoutCore w h tf sf title subtitle).BoxHeight / 9 := by
      rw [minInt_eq]
      unfold radiusDivisor
      exact gdiv_eq _ _ (by omega) (by omega)
    rw [core_BoxRadius, SpecFormulas.radius, maxInt_eq, hdr]
  · rw [core_SeparatorY, SpecFormulas.separatorCenter, SpecFormulas.gapAfterTitle, maxInt_eq]
    rfl
  · rw [core_TitleX, SpecFormulas.titleBaselineX]
    rfl
  · rw [core_TitleY, SpecFormulas.titleBaselineY]
  · rw [core_SubtitleX, SpecFormulas.subtitleBaselineX]
    rfl
  · rw [core_SubtitleY, SpecFormulas.subtitleBaselineY, SpecFormulas.gapAfterSeparator]
    rfl

/-! ### Well-formedness of the demonstration faces -/

theorem demoTitleFace_wf : demoTitleFace.wf :=
  ⟨fun s => by unfold demoTitleFace; dsimp only; omega, by norm_num [demoTitleFace],
    by norm_num [demoTitleFace]⟩

theorem demoSubtitleFace_wf : demoSubtitleFace.wf :=
  ⟨fun s => by unfold demoSubtitleFace; dsimp only; omega, by norm_num [demoSubtitleFace],
    by norm_num [demoSubtitleFace]⟩

/-- Witness for claim C1: the spec formulas instantiated at the target
resolution with the demonstration faces. -/
theorem computeLayout_matches_spec_formulas_witness :
    ∃ l, ComputeLayoutForText 3840 2160 (some demoTitleFace) (some demoSubtitleFace)
        "TSSH test" "build-1" = .ok l ∧
      l.Padding = SpecFormulas.padding 3840 2160 ∧
      l.BoxWidth = SpecFormulas.panelWidth 3840
        (SpecFormulas.contentWidth (advanceOf demoTitleFace "TSSH test")
          (advanceOf demoSubtitleFace "build-1"))
        (SpecFormulas.padding 3840 2160) ∧
      l.SeparatorThickness = SpecFormulas.lineThickness 2160 ∧
      l.BoxHeight = SpecFormulas.panelHeight l.Padding (lineHeightOf demoTitleFace)
        (SpecFormulas.gapAfterTitle l.Padding l.SeparatorThickness) l.SeparatorThickness
        (SpecFormulas.gapAfterSeparator l.Padding) (lineHeightOf demoSubtitleFace) ∧
      l.BoxX0 = SpecFormulas.panelStart 3840 l.BoxWidth ∧
      l.BoxY0 = SpecFormulas.panelStart 2160 l.BoxHeight ∧
      l.BoxX1 = l.BoxX0 + l.BoxWidth ∧
      l.BoxY1 = l.BoxY0 + l.BoxHeight ∧
      l.BoxRadius = SpecFormulas.radius l.BoxWidth l.BoxHeight ∧
      l.SeparatorY = SpecFormulas.separatorCenter l.BoxY0 l.Padding
        (lineHeightOf demoTitleFace)
        (SpecFormulas.gapAfterTitle l.Padding l.SeparatorThickness) l.SeparatorThickness ∧
      l.TitleX = SpecFormulas.titleBaselineX l.BoxX0 l.BoxWidth
        (advanceOf demoTitleFace "TSSH test") ∧
      l.TitleY = SpecFormulas.titleBaselineY l.BoxY0 l.Padding
        (ascentCeilOf demoTitleFace) ∧
      l.SubtitleX = SpecFormulas.subtitleBaselineX l.BoxX0 l.BoxWidth
        (advanceOf demoSubtitleFace "build-1") ∧
      l.SubtitleY = SpecFormulas.subtitleBaselineY l.SeparatorY l.SeparatorThickness
        (SpecFormulas.gapAfterSeparator l.Padding) (ascentCeilOf demoSubtitleFace) :=
  computeLayout_matches_spec_formulas 3840 2160 (by norm_num) (by norm_num)
    demoTitleFace demoSubtitleFace demoTitleFace_wf demoSubtitleFace_wf
    "TSSH test" "build-1"

/-! ### Claim C7 -/

/-- Claim C7: `ComputeLayoutForText` returns an error exactly when one of
the two faces is absent; that error says a font face is nil (so no
geometry is produced), and with both faces present it always returns a
geometry record, for any canvas dimensions and any strings. -/
theorem computeLayout_nil_face_iff (w h : Int) (tfO sfO : Option Face) (t s : String) :
    ((∃ e, ComputeLayoutForText w h tfO sfO t s = .error e) ↔ (tfO = none ∨ sfO = none)) ∧
    (∀ e, ComputeLayoutForText w h tfO sfO t s = .error e →
      e = "layout: font face is nil") ∧
    (tfO ≠ none → sfO ≠ none → ∃ l, ComputeLayoutForText w h tfO sfO t s = .ok l) := by
  unfold ComputeLayoutForText
  match tfO, sfO with
  | none, _ => simp
  | some tf, none => simp
  | some tf, some sf => simp

/-- Witness for claim C7: a missing subtitle face is rejected with the
nil-face error. -/
theorem computeLayout_nil_face_iff_witness :
    ((∃ e, ComputeLayoutForText 640 480 (some demoTitleFace) none "t" "s" = .error e) ↔
      ((some demoTitleFace = none) ∨ (none : Option Face) = none)) ∧
    (∀ e, ComputeLayoutForText 640 480 (some demoTitleFace) none "t" "s" = .error e →
      e = "layout: font face is nil") ∧
    (some demoTitleFace ≠ none → (none : Option Face) ≠ none →
      ∃ l, ComputeLayoutForText 640 480 (some demoTitleFace) none "t" "s" = .ok l) :=
  computeLayout_nil_face_iff 640 480 (some demoTitleFace) none "t" "s"

/-! ### Claim C8 -/

/-- Claim C8: when either canvas dimension is non-positive no error is
raised on that account; both dimensions are replaced by the fixed target
resolution 3840×2160, so the result is the one computed for the default
resolution with the same faces and texts. -/
theorem computeLayout_nonpositive_dims_default (w h : Int) (hnp : w ≤ 0 ∨ h ≤ 0)
    (tfO sfO : Option Face) (t s : String) :
    ComputeLayoutForText w h tfO sfO t s =
      ComputeLayoutForText TargetWidth TargetHeight tfO sfO t s := by
  have hpos : ¬(TargetWidth ≤ 0 ∨ TargetHeight ≤ 0) := by
    unfold TargetWidth TargetHeight
    omega
  unfold ComputeLayoutForText
  simp only [if_pos hnp, if_neg hpos]

/-- Witness for claim C8: a zero width falls back to the default target
resolution. -/
theorem computeLayout_nonpositive_dims_default_witness :
    ((0:Int) ≤ 0 ∨ (2160:Int) ≤ 0) ∧
    ComputeLayoutForText 0 2160 (some demoTitleFace) (some demoSubtitleFace) "a" "b" =
      ComputeLayoutForText TargetWidth TargetHeight (some demoTitleFace)
        (some demoSubtitleFace) "a" "b" :=
  ⟨Or.inl le_rfl,
    computeLayout_nonpositive_dims_default 0 2160 (Or.inl le_rfl)
      (some demoTitleFace) (some demoSubtitleFace) "a" "b"⟩

/-! ### Claim C2 -/

theorem demoWideFace_wf : demoWideFace.wf :=
  ⟨fun _ => by norm_num [demoWideFace], by norm_num [demoWideFace],
    by norm_num [demoWideFace]⟩

/-- Counterexample to claim C2 as stated: on a 100×100 canvas with a face
measuring 1000 px for every string (a valid input: positive dimensions,
non-nil faces), the computed panel starts at x = −464 and ends at
x = 564, violating both `panelX0 ≥ 0` and `panelX1 ≤ canvasW`. -/
theorem panel_containment_counterexample :
    demoWideFace.wf ∧
    Except.map Layout.BoxX0
      (ComputeLayoutForText 100 100 (some demoWideFace) (some demoWideFace) "t" "s") =
      .ok (-464) ∧
    Except.map Layout.BoxX1
      (ComputeLayoutForText 100 100 (some demoWideFace) (some demoWideFace) "t" "s") =
      .ok 564 ∧
    ((-464:Int) < 0 ∧ (100:Int) < 564) :=
  ⟨demoWideFace_wf, rfl, rfl, by decide⟩

/-- Claim C2 (amended): the panel and both text anchors are contained in
the canvas whenever the computed panel itself fits the canvas
(`BoxWidth ≤ canvasW` and `BoxHeight ≤ canvasH` — which holds in every
successful render, where text widths are validated against the canvas),
for faces with the nonnegative metrics real font faces report.  Without
the fit condition the claim fails (`panel_containment_counterexample`). -/
theorem panel_containment_of_fits (w h : Int) (tf sf : Face) (title subtitle : String)
    (hw : 0 < w) (hh : 0 < h) (htf : tf.wf) (hsf : sf.wf) (l : Layout)
    (hok : ComputeLayoutForText w h (some tf) (some sf) title subtitle = .ok l)
    (hfw : l.BoxWidth ≤ w) (hfh : l.BoxHeight ≤ h) :
    0 ≤ l.BoxX0 ∧ 0 ≤ l.BoxY0 ∧ l.BoxX1 ≤ w ∧ l.BoxY1 ≤ h ∧
    l.BoxX0 ≤ l.TitleX ∧ l.TitleX ≤ l.BoxX1 ∧
    l.BoxY0 ≤ l.TitleY ∧ l.TitleY ≤ l.BoxY1 ∧
    l.BoxX0 ≤ l.SubtitleX ∧ l.SubtitleX ≤ l.BoxX1 ∧
    l.BoxY0 ≤ l.SubtitleY ∧ l.SubtitleY ≤ l.BoxY1 := by
  rw [computeLayout_pos_eq w h hw hh tf sf title subtitle] at hok
  injection hok with hok
  subst hok
  have hP := core_Padding_ge_14 w h tf sf title subtitle
  have hT := core_Thickness_ge_2 w h tf sf title subtitle
  have hBW := core_content_le_BoxWidth w h tf sf title subtitle
  rw [maxInt_eq] at hBW
  have hta := advanceOf_nonneg htf title
  have hsa := advanceOf_nonneg hsf subtitle
  have hlh1 := lineHeightOf_nonneg htf
  have hlh2 := lineHeightOf_nonneg hsf
  have hac1 := ascentCeilOf_nonneg htf
  have hac2 := ascentCeilOf_nonneg hsf
  have hle1 := ascentCeilOf_le_lineHeightOf htf
  have hle2 := ascentCeilOf_le_lineHeightOf hsf
  have hg3 : gdiv (computeLayoutCore w h tf sf title subtitle).Padding 3 =
      (computeLayoutCore w h tf sf title subtitle).Padding / 3 :=
    gdiv_eq _ _ (by omega) (by omega)
  have hg2p : gdiv (computeLayoutCore w h tf sf title subtitle).Padding 2 =
      (computeLayoutCore w h tf sf title subtitle).Padding / 2 :=
    gdiv_eq _ _ (by omega) (by omega)
  have hg2t : gdiv (computeLayoutCore w h tf sf title subtitle).SeparatorThickness 2 =
      (computeLayoutCore w h tf sf title subtitle).SeparatorThickness / 2 :=
    gdiv_eq _ _ (by omega) (by omega)
  have e1 : (computeLayoutCore w h tf sf title subtitle).BoxX0 =
      (w - (computeLayoutCore w h tf sf title subtitle).BoxWidth) / 2 := by
    rw [core_BoxX0]
    exact gdiv_eq _ _ (by omega) (by omega)
  have e2 : (computeLayoutCore w h tf sf title subtitle).BoxY0 =
      (h - (computeLayoutCore w h tf sf title subtitle).BoxHeight) / 2 := by
    rw [core_BoxY0]
    exact gdiv_eq _ _ (by omega) (by omega)
  have e3 := core_BoxX1 w h tf sf title subtitle
  have e4 := core_BoxY1 w h tf sf title subtitle
  have e5 : (computeLayoutCore w h tf sf title subtitle).BoxHeight =
      (computeLayoutCore w h tf sf title subtitle).Padding + lineHeightOf tf +
        max ((computeLayoutCore w h tf sf title subtitle).Padding / 3)
          (computeLayoutCore w h tf sf title subtitle).SeparatorThickness +
        (computeLayoutCore w h tf sf title subtitle).SeparatorThickness +
        (computeLayoutCore w h tf sf title subtitle).Padding / 2 + lineHeightOf sf +
        (computeLayoutCore w h tf sf title subtitle).Padding := by
    rw [core_BoxHeight, maxInt_eq, hg3, hg2p]
  have e6 : (computeLayoutCore w h tf sf title subtitle).TitleX =
      (computeLayoutCore w h tf sf title subtitle).BoxX0 +
        ((computeLayoutCore w h tf sf title subtitle).BoxWidth - advanceOf tf title) / 2 := by
    rw [core_TitleX]
    have := gdiv_eq ((computeLayoutCore w h tf sf title subtitle).BoxWidth - advanceOf tf title)
      2 (by omega) (by omega)
    rw [this]
  have e7 := core_TitleY w h tf sf title subtitle
  have e8 : (computeLayoutCore w h tf sf title subtitle).SeparatorY =
      (computeLayoutCore w h tf sf title subtitle).BoxY0 +
        (computeLayoutCore w h tf sf title subtitle).Padding + lineHeightOf tf +
        max ((computeLayoutCore w h tf sf title subtitle).Padding / 3)
          (computeLayoutCore w h tf sf title subtitle).SeparatorThickness +
        (computeLayoutCore w h tf sf title subtitle).SeparatorThickness / 2 := by
    rw [core_SeparatorY, maxInt_eq, hg3, hg2t]
  have e9 : (computeLayoutCore w h tf sf title subtitle).SubtitleX =
      (computeLayoutCore w h tf sf title subtitle).BoxX0 +
        ((computeLayoutCore w h tf sf title subtitle).BoxWidth - advanceOf sf subtitle) / 2 := by
    rw [core_SubtitleX]
    have := gdiv_eq ((computeLayoutCore w h tf sf title subtitle).BoxWidth -
      advanceOf sf subtitle) 2 (by omega) (by omega)
    rw [this]
  have e10 : (computeLayoutCore w h tf sf title subtitle).SubtitleY =
      (computeLayoutCore w h tf sf title subtitle).SeparatorY +
        (computeLayoutCore w h tf sf title subtitle).SeparatorThickness / 2 +
        (computeLayoutCore w h tf sf title subtitle).Padding / 2 + ascentCeilOf sf := by
    rw [core_SubtitleY, hg2t, hg2p]
  omega

/-- Witness for the amended claim C2, at the target resolution with the
demonstration faces. -/
theorem panel_containment_of_fits_witness :
    0 ≤ demoLayout.BoxX0 ∧ 0 ≤ demoLayout.BoxY0 ∧ demoLayout.BoxX1 ≤ 3840 ∧
    demoLayout.BoxY1 ≤ 2160 ∧
    demoLayout.BoxX0 ≤ demoLayout.TitleX ∧ demoLayout.TitleX ≤ demoLayout.BoxX1 ∧
    demoLayout.BoxY0 ≤ demoLayout.TitleY ∧ demoLayout.TitleY ≤ demoLayout.BoxY1 ∧
    demoLayout.BoxX0 ≤ demoLayout.SubtitleX ∧ demoLayout.SubtitleX ≤ demoLayout.BoxX1 ∧
    demoLayout.BoxY0 ≤ demoLayout.SubtitleY ∧ demoLayout.SubtitleY ≤ demoLayout.BoxY1 :=
  panel_containment_of_fits 3840 2160 demoTitleFace demoSubtitleFace "TSSH test" "build-1"
    (by norm_num) (by norm_num) demoTitleFace_wf demoSubtitleFace_wf demoLayout
    (computeLayout_pos_eq 3840 2160 (by norm_num) (by norm_num) demoTitleFace
      demoSubtitleFace "TSSH test" "build-1")
    (by decide) (by decide)

/-! ### Claim C5 -/

/-- Claim C5: for positive target dimensions, `resizeAndCrop` fails
exactly when the source has zero width or zero height, and every
successful result has exactly the target dimensions, for any source
aspect ratio.  (The cover-scale factor and the centered crop offsets are
part of the definition of `resizeAndCrop`.) -/
theorem resizeAndCrop_dims_and_failure (src : GoImage) (tw th : Int)
    (hw : 0 < tw) (hh : 0 < th) :
    ((∃ e, resizeAndCrop src tw th = .error e) ↔ (src.w = 0 ∨ src.h = 0)) ∧
    (∀ img, resizeAndCrop src tw th = .ok img →
      (img.w : Int) = tw ∧ (img.h : Int) = th) := by
  unfold resizeAndCrop
  by_cases hz : src.w = 0 ∨ src.h = 0
  · simp [hz]
  · simp only [if_neg hz]
    refine ⟨by simp [hz], ?_⟩
    intro img himg
    injection himg with himg
    subst himg
    exact ⟨Int.natAbs_of_nonneg hw.le, Int.natAbs_of_nonneg hh.le⟩

/-- Witness for claim C5: a 64×64 source covers a 3840×2160 target. -/
theorem resizeAndCrop_dims_and_failure_witness :
    ((∃ e, resizeAndCrop ⟨64, 64⟩ 3840 2160 = .error e) ↔
      ((⟨64, 64⟩ : GoImage).w = 0 ∨ (⟨64, 64⟩ : GoImage).h = 0)) ∧
    (∀ img, resizeAndCrop ⟨64, 64⟩ 3840 2160 = .ok img →
      (img.w : Int) = 3840 ∧ (img.h : Int) = 2160) :=
  resizeAndCrop_dims_and_failure ⟨64, 64⟩ 3840 2160 (by norm_num) (by norm_num)

/-! ### Claim C9 -/

/-- Claim C9: whenever the maximum safe text width is defined and
positive for canvas width `w` (that is, `maxTextWidthForImage` succeeds),
it is also defined at width `2w`, with a strictly larger value. -/
theorem maxTextWidth_doubling_monotone (w m : Int)
    (hok : maxTextWidthForImage w = .ok m) :
    ∃ m2, maxTextWidthForImage (2 * w) = .ok m2 ∧ m < m2 := by
  unfold maxTextWidthForImage round15 at hok ⊢
  dsimp only at hok ⊢
  rw [maxInt_eq] at hok ⊢
  split at hok
  · exact absurd hok (by simp)
  · rename_i hw
    split at hok
    · exact absurd hok (by simp)
    · rename_i hm
      injection hok with hok
      have h2w : ¬(2 * w ≤ 0) := by omega
      rw [if_neg h2w]
      have h2m : ¬(2 * w - 2 * max 24 ((3 * (2 * w) + 10) / 20) ≤ 0) := by omega
      rw [if_neg h2m]
      exact ⟨_, rfl, by omega⟩

/-- Witness for claim C9: at the target width 3840 the safe width is
2688; doubling the width increases it. -/
theorem maxTextWidth_doubling_monotone_witness :
    maxTextWidthForImage 3840 = .ok 2688 ∧
    ∃ m2, maxTextWidthForImage (2 * 3840) = .ok m2 ∧ 2688 < m2 :=
  ⟨rfl, maxTextWidth_doubling_monotone 3840 2688 rfl⟩

/-! ### Claim C4 -/

/-- Claim C4: whenever `Render` returns an error — nil background, font
load failure, layout failure, zero-area background, text-too-long — the
returned image is absent; no partially composited canvas is ever
returned alongside an error. -/
theorem render_error_implies_no_image (env : RenderEnv) (tn bid : String) (e : String)
    (he : (Render env tn bid).2 = some e) : (Render env tn bid).1 = none := by
  have hdis : (Render env tn bid).1 = none ∨ (Render env tn bid).2 = none := by
    unfold Render
    dsimp only
    repeat' split
    all_goals simp
  rcases hdis with hd | hd
  · exact hd
  · rw [he] at hd
    cases hd

/-- Witness for claim C4: a nil background yields an error and no image. -/
theorem render_error_implies_no_image_witness :
    (Render ⟨none, .ok demoTitleFace, .ok demoSubtitleFace⟩ "x" "y").2 =
      some "render: background is nil" ∧
    (Render ⟨none, .ok demoTitleFace, .ok demoSubtitleFace⟩ "x" "y").1 = none :=
  ⟨rfl, render_error_implies_no_image ⟨none, .ok demoTitleFace, .ok demoSubtitleFace⟩
    "x" "y" "render: background is nil" rfl⟩

/-! ### Separator geometry lemmas -/

theorem separatorDesiredWidth_eq (l : Layout) (tw : Int) :
    separatorDesiredWidth l tw =
      min (min tw (l.BoxWidth - 2 * l.Padding) + max (gdiv l.Padding 4) 10)
        (l.BoxWidth - 2 * l.Padding) := by
  unfold separatorDesiredWidth
  dsimp only
  rw [maxInt_eq]
  split_ifs <;> omega

theorem drawSeparatorRect_extent (l : Layout) (tw : Int) :
    (drawSeparatorRect l tw).x1 - (drawSeparatorRect l tw).x0 =
      separatorDesiredWidth l tw := by
  unfold drawSeparatorRect
  dsimp only
  omega

theorem drawSeparatorRect_x0 (l : Layout) (tw : Int) :
    (drawSeparatorRect l tw).x0 =
      l.BoxX0 + gdiv (l.BoxWidth - separatorDesiredWidth l tw) 2 := rfl

/-! ### Reduction of the render pipeline -/

theorem resizeAndCrop_target_ok (bg : GoImage) (hbg : ¬(bg.w = 0 ∨ bg.h = 0)) :
    resizeAndCrop bg TargetWidth TargetHeight = .ok ⟨3840, 2160⟩ := by
  unfold resizeAndCrop
  rw [if_neg hbg]
  rfl

theorem resizeAndCrop_zero_area (bg : GoImage) (hbg : bg.w = 0 ∨ bg.h = 0)
    (tw th : Int) : resizeAndCrop bg tw th = .error "render: background has zero area" := by
  unfold resizeAndCrop
  rw [if_pos hbg]

/-- The `Render` with a present, nonzero-area background and loaded faces,
reduced past layout, background compositing and the safe-width
computation: only the two text validations remain to decide the result. -/
theorem render_steps (bg : GoImage) (tf sf : Face) (tn bid : String) (mw : Int)
    (hbg : ¬(bg.w = 0 ∨ bg.h = 0))
    (hmw : maxTextWidthForImage TargetWidth = .ok mw) :
    Render ⟨some bg, .ok tf, .ok sf⟩ tn bid =
      match validateTextWidth "title" tf (titleFor tn) mw with
      | some e => (none, some e)
      | none =>
        match validateTextWidth "subtitle" sf (subtitleFor bid) mw with
        | some e => (none, some e)
        | none => (some (drawTextOn (drawTextOn (drawSeparator (drawRoundedRect
            { width := TargetWidth, height := TargetHeight }
            ⟨(renderLayout tf sf tn bid).BoxX0, (renderLayout tf sf tn bid).BoxY0,
              (renderLayout tf sf tn bid).BoxX1, (renderLayout tf sf tn bid).BoxY1⟩
            (renderLayout tf sf tn bid).BoxRadius)
            (renderLayout tf sf tn bid)
            (maxInt (advanceOf tf (titleFor tn)) (advanceOf sf (subtitleFor bid))))
          (titleFor tn) (renderLayout tf sf tn bid).TitleX
            (renderLayout tf sf tn bid).TitleY)
          (subtitleFor bid) (renderLayout tf sf tn bid).SubtitleX
            (renderLayout tf sf tn bid).SubtitleY), none) := by
  unfold Render
  dsimp only
  rw [computeLayout_pos_eq TargetWidth TargetHeight (by decide) (by decide) tf sf
    (titleFor tn) (subtitleFor bid)]
  dsimp only
  rw [core_Width, core_Height, resizeAndCrop_target_ok bg hbg]
  dsimp only
  rw [hmw]
  dsimp only [drawText]
  rfl

/-! ### Claim C3 -/

/-- Claim C3: the safe width computed for a canvas is
`canvasWidth − 2×max(24, round(canvasWidth×0.15))` (and is positive when
the computation succeeds); `validateTextWidth` fails exactly when the
safe width is non-positive or the measured advance, rounded up, exceeds
it; on failure the error names the offending line and asks for shorter
text; and in `Render` a failing line is never drawn — the failing
validation makes `Render` return no image at all, just that error. -/
theorem validateTextWidth_spec (w m mw : Int) (label text : String) (face : Face) :
    (maxTextWidthForImage w = .ok m →
      m = w - 2 * max 24 (round15 w) ∧ 0 < m) ∧
    ((∃ e, validateTextWidth label face text m = some e) ↔
      (m ≤ 0 ∨ m < advanceOf face text)) ∧
    (∀ e, validateTextWidth label face text m = some e →
      e = "render: " ++ label ++
        " text is too long for the selected image resolution, please reduce the text") ∧
    (∀ (bg : GoImage) (tf sf : Face) (tn bid e : String),
      ¬(bg.w = 0 ∨ bg.h = 0) →
      maxTextWidthForImage TargetWidth = .ok mw →
      validateTextWidth "title" tf (titleFor tn) mw = some e →
      Render ⟨some bg, .ok tf, .ok sf⟩ tn bid = (none, some e)) ∧
    (∀ (bg : GoImage) (tf sf : Face) (tn bid e : String),
      ¬(bg.w = 0 ∨ bg.h = 0) →
      maxTextWidthForImage TargetWidth = .ok mw →
      validateTextWidth "title" tf (titleFor tn) mw = none →
      validateTextWidth "subtitle" sf (subtitleFor bid) mw = some e →
      Render ⟨some bg, .ok tf, .ok sf⟩ tn bid = (none, some e)) := by
  refine ⟨?_, ?_, ?_, ?_, ?_⟩
  · intro hok
    unfold maxTextWidthForImage round15 at hok
    dsimp only at hok
    rw [maxInt_eq] at hok
    split at hok
    · exact absurd hok (by simp)
    · split at hok
      · exact absurd hok (by simp)
      · injection hok with hok
        unfold round15
        omega
  · unfold validateTextWidth
    split_ifs with h1 h2
    · simp only [Option.some.injEq, exists_eq']
      constructor
      · intro
        exact Or.inl h1
      · intro
        trivial
    · simp only [Option.some.injEq, exists_eq']
      constructor
      · intro
        exact Or.inr h2
      · intro
        trivial
    · constructor
      · rintro ⟨e, he⟩
        cases he
      · intro hc
        omega
  · unfold validateTextWidth
    intro e he
    split_ifs at he
    · exact (Option.some.inj he).symm
    · exact (Option.some.inj he).symm
  · intro bg tf sf tn bid e hbg hmw hv1
    rw [render_steps bg tf sf tn bid mw hbg hmw, hv1]
  · intro bg tf sf tn bid e hbg hmw hv1 hv2
    rw [render_steps bg tf sf tn bid mw hbg hmw, hv1]
    dsimp only
    rw [hv2]

/-- Witness for claim C3: at the target resolution a title face that
measures 3000 px makes `Render` refuse with the title-too-long error and
return no image. -/
theorem validateTextWidth_spec_witness :
    Render ⟨some ⟨64, 64⟩, .ok demoHugeFace, .ok demoSubtitleFace⟩ "longtitle" "b" =
      (none, some
        "render: title text is too long for the selected image resolution, please reduce the text") :=
  (validateTextWidth_spec 3840 2688 2688 "x" "y" demoWideFace).2.2.2.1
    ⟨64, 64⟩ demoHugeFace demoSubtitleFace "longtitle" "b"
    "render: title text is too long for the selected image resolution, please reduce the text"
    (by decide) rfl (by decide)

/-! ### Claim C6 -/

/-- Claim C6: in every successful render the separator rect's horizontal
extent is `min(min(max(titleAdvance, subtitleAdvance), panelWidth −
2×padding) + max(padding/4, 10), panelWidth − 2×padding)` — so it tracks
the wider of the two text lines — and the rect is horizontally centered
within the panel. -/
theorem separator_width_tracks_text (env : RenderEnv) (tn bid : String) (tf sf : Face)
    (htl : env.titleFaceLoad = .ok tf) (hsl : env.subtitleFaceLoad = .ok sf)
    (hsucc : (Render env tn bid).2 = none) :
    ∃ canvas r, (Render env tn bid).1 = some canvas ∧ canvas.separator = some r ∧
      ∀ l, ComputeLayoutForText TargetWidth TargetHeight (some tf) (some sf)
          (titleFor tn) (subtitleFor bid) = .ok l →
        r.x1 - r.x0 =
          min (min (max (advanceOf tf (titleFor tn)) (advanceOf sf (subtitleFor bid)))
              (l.BoxWidth - 2 * l.Padding) + max (gdiv l.Padding 4) 10)
            (l.BoxWidth - 2 * l.Padding) ∧
        r.x0 = l.BoxX0 + gdiv (l.BoxWidth - (r.x1 - r.x0)) 2 := by
  obtain ⟨bgO, tfl, sfl⟩ := env
  dsimp only at htl hsl
  subst htl hsl
  cases bgO with
  | none => simp [Render] at hsucc
  | some bg =>
    by_cases hbg : bg.w = 0 ∨ bg.h = 0
    · have hz : Render ⟨some bg, .ok tf, .ok sf⟩ tn bid =
          (none, some "render: background has zero area") := by
        unfold Render
        dsimp only
        rw [computeLayout_pos_eq TargetWidth TargetHeight (by decide) (by decide) tf sf
          (titleFor tn) (subtitleFor bid)]
        dsimp only
        rw [core_Width, core_Height, resizeAndCrop_zero_area bg hbg]
      rw [hz] at hsucc
      cases hsucc
    · have hmw : maxTextWidthForImage TargetWidth = .ok 2688 := rfl
      have hsteps := render_steps bg tf sf tn bid 2688 hbg hmw
      cases hv1 : validateTextWidth "title" tf (titleFor tn) 2688 with
      | some e =>
        rw [hsteps, hv1] at hsucc
        simp at hsucc
      | none =>
        cases hv2 : validateTextWidth "subtitle" sf (subtitleFor bid) 2688 with
        | some e =>
          rw [hsteps, hv1] at hsucc
          dsimp only at hsucc
          rw [hv2] at hsucc
          simp at hsucc
        | none =>
          rw [hsteps, hv1]
          dsimp only
          rw [hv2]
          dsimp only
          refine ⟨_, drawSeparatorRect (renderLayout tf sf tn bid)
            (maxInt (advanceOf tf (titleFor tn)) (advanceOf sf (subtitleFor bid))),
            rfl, rfl, ?_⟩
          intro l hl
          rw [computeLayout_pos_eq TargetWidth TargetHeight (by decide) (by decide) tf sf
            (titleFor tn) (subtitleFor bid)] at hl
          injection hl with hl
          subst hl
          unfold renderLayout
          constructor
          · rw [drawSeparatorRect_extent, separatorDesiredWidth_eq, maxInt_eq]
          · rw [drawSeparatorRect_extent, drawSeparatorRect_x0]

/-- Witness for claim C6: a successful render with the demonstration
faces. -/
theorem separator_width_tracks_text_witness :
    ∃ canvas r,
      (Render ⟨some ⟨64, 64⟩, .ok demoConstTitleFace, .ok demoConstSubtitleFace⟩
        "test" "build-1").1 = some canvas ∧ canvas.separator = some r ∧
      ∀ l, ComputeLayoutForText TargetWidth TargetHeight (some demoConstTitleFace)
          (some demoConstSubtitleFace) (titleFor "test") (subtitleFor "build-1") = .ok l →
        r.x1 - r.x0 =
          min (min (max (advanceOf demoConstTitleFace (titleFor "test"))
              (advanceOf demoConstSubtitleFace (subtitleFor "build-1")))
              (l.BoxWidth - 2 * l.Padding) + max (gdiv l.Padding 4) 10)
            (l.BoxWidth - 2 * l.Padding) ∧
        r.x0 = l.BoxX0 + gdiv (l.BoxWidth - (r.x1 - r.x0)) 2 :=
  separator_width_tracks_text
    ⟨some ⟨64, 64⟩, .ok demoConstTitleFace, .ok demoConstSubtitleFace⟩
    "test" "build-1" demoConstTitleFace demoConstSubtitleFace rfl rfl rfl

/-! ### Claim C10 -/

/-- Claim C10: `drawSeparator` fills exactly the half-open pixel rows
from `SeparatorY − t/2` up to but excluding `SeparatorY + t/2`, a bar
`2×(t/2)` pixels tall — one less than `t` for odd `t`; at the fixed
3840×2160 canvas the computed thickness is `max(2, 2160/160) = 13` and
the drawn bar is 12 pixels tall. -/
theorem separator_raster_height :
    (∀ (l : Layout) (tw : Int),
      (drawSeparatorRect l tw).y0 = l.SeparatorY - gdiv l.SeparatorThickness 2 ∧
      (drawSeparatorRect l tw).y1 = l.SeparatorY + gdiv l.SeparatorThickness 2 ∧
      (drawSeparatorRect l tw).y1 - (drawSeparatorRect l tw).y0 =
        2 * gdiv l.SeparatorThickness 2) ∧
    (∀ (l : Layout) (tw : Int), 0 ≤ l.SeparatorThickness → Odd l.SeparatorThickness →
      (drawSeparatorRect l tw).y1 - (drawSeparatorRect l tw).y0 =
        l.SeparatorThickness - 1) ∧
    (∀ (tf sf : Face) (t s : String) (l : Layout) (tw : Int),
      ComputeLayoutForText TargetWidth TargetHeight (some tf) (some sf) t s = .ok l →
      l.SeparatorThickness = 13 ∧
      (drawSeparatorRect l tw).y1 - (drawSeparatorRect l tw).y0 = 12) := by
  have hy : ∀ (l : Layout) (tw : Int),
      (drawSeparatorRect l tw).y0 = l.SeparatorY - gdiv l.SeparatorThickness 2 ∧
      (drawSeparatorRect l tw).y1 = l.SeparatorY + gdiv l.SeparatorThickness 2 := by
    intro l tw
    exact ⟨rfl, rfl⟩
  refine ⟨?_, ?_, ?_⟩
  · intro l tw
    obtain ⟨h0, h1⟩ := hy l tw
    refine ⟨h0, h1, ?_⟩
    omega
  · intro l tw hnn hodd
    obtain ⟨h0, h1⟩ := hy l tw
    obtain ⟨k, hk⟩ := hodd
    have hg : gdiv l.SeparatorThickness 2 = l.SeparatorThickness / 2 :=
      gdiv_eq _ _ hnn (by norm_num)
    rw [h0, h1, hg]
    omega
  · intro tf sf t s l tw hok
    rw [computeLayout_pos_eq TargetWidth TargetHeight (by decide) (by decide) tf sf t s]
      at hok
    injection hok with hok
    subst hok
    have h13 : (computeLayoutCore TargetWidth TargetHeight tf sf t s).SeparatorThickness =
        13 := by
      rw [core_SeparatorThickness]
      decide
    obtain ⟨h0, h1⟩ := hy (computeLayoutCore TargetWidth TargetHeight tf sf t s) tw
    refine ⟨h13, ?_⟩
    rw [h0, h1, h13]
    have hg : gdiv (13:Int) 2 = 6 := by decide
    rw [hg]
    omega

/-- Witness for claim C10: the layout at the target resolution with the
demonstration faces has thickness 13 and a 12-pixel-tall bar. -/
theorem separator_raster_height_witness :
    demoLayout.SeparatorThickness = 13 ∧
    (drawSeparatorRect demoLayout 500).y1 - (drawSeparatorRect demoLayout 500).y0 = 12 :=
  separator_raster_height.2.2 demoTitleFace demoSubtitleFace "TSSH test" "build-1"
    demoLayout 500
    (computeLayout_pos_eq 3840 2160 (by decide) (by decide) demoTitleFace
      demoSubtitleFace "TSSH test" "build-1")

end TsRelease
